import Mathlib

/-!
Shallow embedding of `src/simulator.js` (a personal-finance / tax simulation).

JavaScript numbers are modelled as `JsNum := Option ℚ`: `some q` is a finite
number, `none` stands for the non-finite values (`NaN`, `±Infinity`) and for
`undefined` appearing in arithmetic.  A thrown `TypeError` (reading a property
of `undefined`) is modelled by the `Option` monad at the computation level:
functions that can throw return `Option _`, with `none` meaning the exception.
Floating-point rounding is abstracted: arithmetic is exact on `ℚ`.

The source file contains two revisions of the `TaxSystem` class: the first
with an embedded static rule table, the second (after the separator) with an
async `loadCountryRules` fetch/cache and a reworked `calculateWealthTax`.
Both are embedded; definitions for the second revision carry a `_v2` suffix
where the two bodies differ.
-/

/-- JavaScript number value: `none` = NaN / Infinity / undefined-in-arithmetic. -/
abbrev JsNum := Option ℚ

/-- JS addition; non-finite operands propagate. -/
def vAdd : JsNum → JsNum → JsNum
  | some a, some b => some (a + b)
  | _, _ => none

/-- JS subtraction; non-finite operands propagate. -/
def vSub : JsNum → JsNum → JsNum
  | some a, some b => some (a - b)
  | _, _ => none

/-- JS multiplication; non-finite operands propagate. -/
def vMul : JsNum → JsNum → JsNum
  | some a, some b => some (a * b)
  | _, _ => none

/-- JS division; division by zero yields a non-finite value (`none`). -/
def vDiv : JsNum → JsNum → JsNum
  | some a, some b => if b = 0 then none else some (a / b)
  | _, _ => none

/-- JS `Math.min`; NaN propagates. -/
def vMin : JsNum → JsNum → JsNum
  | some a, some b => some (min a b)
  | _, _ => none

/-- JS `<` comparison: any comparison with NaN/undefined is false. -/
def vLtB : JsNum → JsNum → Bool
  | some a, some b => decide (a < b)
  | _, _ => false

/-- One entry of a bracket schedule.  Source field `from` is called `lo`
    (`from` is reserved in Lean); `to` is `none` for the JSON `null`. -/
structure TaxBracket where
  rate : ℚ
  lo : ℚ
  hi : Option ℚ
deriving DecidableEq, Repr

/-- JS truthiness of a bracket upper bound: `null`/absent and `0` are falsy. -/
def toTruthy : Option ℚ → Bool
  | none => false
  | some t => decide (t ≠ 0)

/-- One income-tax component (`tax.type` is "flatRate" or "bracket"). -/
inductive TaxComponent where
  | flatRate (name : String) (rate threshold : ℚ)
  | bracket (name : String) (brackets : List TaxBracket)
deriving DecidableEq, Repr

/-- The `name` property of a component. -/
def TaxComponent.name : TaxComponent → String
  | .flatRate n _ _ => n
  | .bracket n _ => n

/-- Wealth-tax rule: flat `{rate, threshold}` or (second revision only)
    an object with `type: 'bracket'`. -/
inductive WealthTaxRule where
  | flat (rate threshold : ℚ)
  | bracketed (brackets : List TaxBracket)
deriving DecidableEq, Repr

/-- One band of an age-based pension rule; `maxAge = none` is `Infinity`. -/
structure AgeBand where
  maxAge : Option ℚ
  rate : ℚ
deriving DecidableEq, Repr

/-- Pension-contribution rule; `unknownRule` hits the `default:` branch. -/
inductive PensionRule where
  | fixedRate (employeeRate employerRate : ℚ)
  | ageBasedPercentage (rates : List AgeBand) (annualCap : ℚ)
  | unknownRule (tag : String)
deriving DecidableEq, Repr

/-- Per-country record of the rule table (`taxRules[country]`). -/
structure CountryRules where
  incomeTaxes : Option (List TaxComponent)
  wealthTax : Option WealthTaxRule
  personalAssetsTax : Option WealthTaxRule
  capitalGainsTax : List (String × ℚ)
  pensionContribution : PensionRule
deriving DecidableEq, Repr

/-- Expected return / volatility pair of `financialParameters`. -/
structure AssetParams where
  expectedReturn : ℚ
  volatility : ℚ
deriving DecidableEq, Repr

/-- The `inflation` entry of `financialParameters` (`rate`, not
    `expectedReturn`). -/
structure InflationParams where
  rate : ℚ
  volatility : ℚ
deriving DecidableEq, Repr

/-- The `financialParameters` object: asset-class lookup plus the `pension`
    and `inflation` pseudo-classes. -/
structure FinancialParams where
  assets : String → Option AssetParams
  pension : AssetParams
  inflation : InflationParams

/-- The `TaxSystem` object.  The constructor assigns `this.taxRules` and
    `this.financialParameters`; the property `FinancialParameters`
    (capital F), read by `calculatePensionReturns` and `calculateExpenses`,
    is never assigned anywhere in the source, hence defaults to
    `none` (JS `undefined`). -/
structure TaxSystem where
  taxRules : String → Option CountryRules
  financialParameters : FinancialParams
  FinancialParameters : Option FinancialParams := none

/-- The source's `financialParameters` constant. -/
def financialParameters : FinancialParams where
  assets := fun t =>
    if t = "indexFunds" then some ⟨0.07, 0.1⟩
    else if t = "etfs" then some ⟨0.08, 0.15⟩
    else if t = "investmentTrusts" then some ⟨0.06, 0.12⟩
    else if t = "individualShares" then some ⟨0.1, 0.25⟩
    else if t = "bonds" then some ⟨0.04, 0.05⟩
    else if t = "pension" then some ⟨0.05, 0.02⟩
    else none
  pension := ⟨0.05, 0.02⟩
  inflation := ⟨0.02, 0.005⟩

/-- Germany's income-tax bracket list from the static table. -/
def germanyBrackets : List TaxBracket :=
  [⟨0.14, 0, some 10000⟩, ⟨0.3, 10001, some 50000⟩,
   ⟨0.42, 50001, some 200000⟩, ⟨0.45, 200001, none⟩]

/-- The `taxRules.Germany` record of the static table. -/
def germanyRules : CountryRules where
  incomeTaxes := some [.bracket "Income Tax" germanyBrackets]
  wealthTax := some (.flat 0.01 1000000)
  personalAssetsTax := none
  capitalGainsTax := [("indexFunds", 0.25), ("etfs", 0.25),
    ("investmentTrusts", 0.28), ("individualShares", 0.3), ("bonds", 0.15)]
  pensionContribution := .fixedRate 0.09 0.09

/-- The static `taxRules` table of the first revision. -/
def taxRules : String → Option CountryRules := fun country =>
  if country = "Germany" then some germanyRules
  else if country = "USA" then some
    { incomeTaxes := some
        [.bracket "Federal Income Tax"
          [⟨0.1, 0, some 9950⟩, ⟨0.12, 9951, some 40525⟩,
           ⟨0.22, 40526, some 86375⟩, ⟨0.24, 86376, some 164925⟩,
           ⟨0.32, 164926, some 209425⟩, ⟨0.35, 209426, some 523600⟩,
           ⟨0.37, 523601, none⟩],
         .flatRate "Social Security Tax" 0.062 0,
         .flatRate "Medicare Tax" 0.0145 0]
      wealthTax := none
      personalAssetsTax := none
      capitalGainsTax := [("indexFunds", 0.2), ("etfs", 0.2),
        ("investmentTrusts", 0.22), ("individualShares", 0.25), ("bonds", 0.15)]
      pensionContribution := .fixedRate 0.062 0.062 }
  else if country = "France" then some
    { incomeTaxes := some
        [.bracket "Income Tax"
          [⟨0, 0, some 10225⟩, ⟨0.11, 10226, some 26070⟩,
           ⟨0.3, 26071, some 74545⟩, ⟨0.41, 74546, some 160336⟩,
           ⟨0.45, 160337, none⟩],
         .flatRate "General Social Contribution" 0.092 0]
      wealthTax := some (.flat 0.015 1300000)
      personalAssetsTax := none
      capitalGainsTax := [("indexFunds", 0.3), ("etfs", 0.3),
        ("investmentTrusts", 0.32), ("individualShares", 0.35), ("bonds", 0.2)]
      pensionContribution := .fixedRate 0.082 0.172 }
  else if country = "Ireland" then some
    { incomeTaxes := some
        [.bracket "Income Tax" [⟨0.20, 0, some 36800⟩, ⟨0.40, 36801, none⟩],
         .bracket "Universal Social Charge"
          [⟨0.005, 0, some 12012⟩, ⟨0.02, 12013, some 21295⟩,
           ⟨0.045, 21296, some 70044⟩, ⟨0.08, 70045, none⟩],
         .flatRate "Pay Related Social Insurance" 0.04 18304]
      wealthTax := none
      personalAssetsTax := none
      capitalGainsTax := [("indexFunds", 0.33), ("etfs", 0.33),
        ("investmentTrusts", 0.33), ("individualShares", 0.33), ("bonds", 0.33)]
      pensionContribution := .ageBasedPercentage
        [⟨some 29, 0.15⟩, ⟨some 39, 0.20⟩, ⟨some 49, 0.25⟩,
         ⟨some 59, 0.30⟩, ⟨none, 0.35⟩] 115000 }
  else none

/-- The first revision's `TaxSystem` instance:
    `new TaxSystem(taxRules, financialParameters)`. -/
def taxSystem : TaxSystem where
  taxRules := taxRules
  financialParameters := financialParameters

/-- The slice of the base taxed by one bracket:
    `bracket.to ? Math.min(income, bracket.to) - bracket.from : income - bracket.from`.
    Note the JS truthiness test: an upper bound of `0` counts as unbounded. -/
def bracketSlice (income : ℚ) (b : TaxBracket) : ℚ :=
  match b.hi with
  | some t => if t ≠ 0 then min income t - b.lo else income - b.lo
  | none => income - b.lo

/-- The `for (const bracket of tax.brackets)` accumulation loop of
    `calculateIncomeTaxes`. -/
def bracketAmount (income : ℚ) (brackets : List TaxBracket) : ℚ :=
  brackets.foldl
    (fun amount b =>
      if income > b.lo then amount + bracketSlice income b * b.rate else amount)
    0

/-- Amount of one income-tax component at a finite base. -/
def componentAmount (income : ℚ) : TaxComponent → ℚ
  | .flatRate _ rate threshold =>
      if income > threshold then (income - threshold) * rate else 0
  | .bracket _ brackets => bracketAmount income brackets

/-- Amount of one component at a JS base; with a NaN base every `>` guard in
    the source is false, so the amount stays `0`. -/
def componentAmountV (income : JsNum) (c : TaxComponent) : ℚ :=
  match income with
  | some i => componentAmount i c
  | none => 0

/-- `TaxSystem.calculateIncomeTaxes(income, country)`.  Reading
    `this.taxRules[country].incomeTaxes` throws when the country is missing
    (`none`); a record without `incomeTaxes` yields `[]`. -/
def calculateIncomeTaxes (ts : TaxSystem) (income : JsNum) (country : String) :
    Option (List (String × ℚ)) :=
  match ts.taxRules country with
  | none => none
  | some rules =>
    match rules.incomeTaxes with
    | none => some []
    | some comps => some (comps.map fun c => (c.name, componentAmountV income c))

/-- First revision `TaxSystem.calculateWealthTax(wealth, country)`: when the
    rule exists and `wealth > threshold` it returns `wealth * rate` — the rate
    applied to the whole wealth.  A bracket-shaped rule has no `threshold`
    property, so the comparison is with `undefined` and is false. -/
def calculateWealthTax (ts : TaxSystem) (wealth : JsNum) (country : String) :
    Option ℚ :=
  match ts.taxRules country with
  | none => none
  | some rules =>
    match rules.wealthTax, wealth with
    | some (.flat rate threshold), some w =>
        if w > threshold then some (w * rate) else some 0
    | some (.flat _ _), none => some 0
    | some (.bracketed _), _ => some 0
    | none, _ => some 0

/-- The effective wealth rule of the second revision:
    `this.taxRules[country].personalAssetsTax || this.taxRules[country].wealthTax`. -/
def effectiveWealthRule (rules : CountryRules) : Option WealthTaxRule :=
  match rules.personalAssetsTax with
  | some r => some r
  | none => rules.wealthTax

/-- The second revision's bracketed wealth-tax loop, with its early `break`
    when `bracket.to && wealth <= bracket.to`. -/
def wealthTaxBrackets (wealth : ℚ) : List TaxBracket → ℚ
  | [] => 0
  | b :: rest =>
    let taxable : ℚ :=
      match b.hi with
      | some t => if t ≠ 0 then min (wealth - b.lo) (t - b.lo) else wealth - b.lo
      | none => wealth - b.lo
    let acc : ℚ := if wealth > b.lo then taxable * b.rate else 0
    let stop : Bool :=
      match b.hi with
      | some t => toTruthy (some t) && decide (wealth ≤ t)
      | none => false
    if stop then acc else acc + wealthTaxBrackets wealth rest

/-- Second revision `TaxSystem.calculateWealthTax`: flat rule taxes only the
    excess over the threshold; missing country record throws.  (The
    `if (!this.loadCountryRules(country))` guard compares a Promise, which is
    always truthy, so it never returns early and is omitted.) -/
def calculateWealthTax_v2 (cache : String → Option CountryRules)
    (wealth : JsNum) (country : String) : Option ℚ :=
  match cache country with
  | none => none
  | some rules =>
    match effectiveWealthRule rules with
    | none => some 0
    | some (.bracketed bs) =>
        some (match wealth with
              | some w => wealthTaxBrackets w bs
              | none => 0)
    | some (.flat rate threshold) =>
        some (match wealth with
              | some w => if w > threshold then (w - threshold) * rate else 0
              | none => 0)

/-- `pensionRule.rates.find(r => age <= r.maxAge)`. -/
def findBand (age : ℚ) : List AgeBand → Option AgeBand
  | [] => none
  | b :: rest =>
    match b.maxAge with
    | none => some b
    | some m => if age ≤ m then some b else findBand age rest

/-- `TaxSystem.calculatePensionContribution(income, country, age)`.  The outer
    `Option` is the country-record access; the inner `JsNum` carries NaN from
    an undefined income.  `find` returning no band throws (`.rate` of
    `undefined`); an unknown rule type warns and returns 0. -/
def calculatePensionContribution (ts : TaxSystem) (income : JsNum)
    (country : String) (age : ℚ) : Option JsNum :=
  match ts.taxRules country with
  | none => none
  | some rules =>
    match rules.pensionContribution with
    | .fixedRate employeeRate employerRate =>
        some (vMul income (some (employeeRate + employerRate)))
    | .ageBasedPercentage rates annualCap =>
        match findBand age rates with
        | none => none
        | some band => some (vMin (vMul income (some band.rate)) (some annualCap))
    | .unknownRule _ => some (some 0)

/-- `capitalGainsRule[type] || 0` (a configured rate of 0 is falsy but the
    result is 0 either way). -/
def lookupRate (rates : List (String × ℚ)) (t : String) : ℚ :=
  match rates.find? (fun p => p.1 = t) with
  | some p => p.2
  | none => 0

/-- An investment position; the initial profile objects carry no `gains`
    property, so it defaults to `undefined`. -/
structure Investment where
  type : String
  amount : JsNum
  gains : JsNum := none
deriving DecidableEq, Repr

/-- `TaxSystem.calculateCapitalGainsTax(investments, country)`. -/
def calculateCapitalGainsTax (ts : TaxSystem) (investments : List Investment)
    (country : String) : Option JsNum :=
  match ts.taxRules country with
  | none => none
  | some rules =>
    some (investments.foldl
      (fun acc inv =>
        vAdd acc (vMul inv.gains (some (lookupRate rules.capitalGainsTax inv.type))))
      (some 0))

/-- `TaxSystem.calculateInvestmentReturns(investments)`: overwrites each
    position's `gains` with `amount * (expectedReturn + (2r-1)*volatility)`,
    consuming one `Math.random()` draw per position; a missing asset class
    throws before the draw. -/
def calculateInvestmentReturns (ts : TaxSystem) (rand : ℕ → ℚ) (k : ℕ) :
    List Investment → Option (List Investment × ℕ)
  | [] => some ([], k)
  | inv :: rest =>
    match ts.financialParameters.assets inv.type with
    | none => none
    | some p =>
      let randomFactor := (rand k * 2 - 1) * p.volatility
      let nominalReturn := p.expectedReturn + randomFactor
      match calculateInvestmentReturns ts rand (k + 1) rest with
      | none => none
      | some (rest2, k2) =>
          some ({ inv with gains := vMul inv.amount (some nominalReturn) } :: rest2, k2)

/-- `TaxSystem.calculatePensionReturns(pensionPot)`.  The body destructures
    `this.FinancialParameters.pension` — capital F, a property the constructor
    never sets — so on every `TaxSystem` built by the source this throws a
    TypeError before using the pot or sampling. -/
def calculatePensionReturns (ts : TaxSystem) (pensionPot : JsNum) (r : ℚ) :
    Option JsNum :=
  match ts.FinancialParameters with
  | none => none
  | some fp =>
    let randomFactor := (r * 2 - 1) * fp.pension.volatility
    let nominalReturn := fp.pension.expectedReturn + randomFactor
    some (vMul pensionPot (some nominalReturn))

/-- `TaxSystem.calculateExpenses(expenses)`: inflation adjustment.  It also
    destructures `this.FinancialParameters.inflation` (capital F) and hence
    throws on every `TaxSystem` built by the source. -/
def calculateExpenses (ts : TaxSystem) (expenses : JsNum) (r : ℚ) :
    Option JsNum :=
  match ts.FinancialParameters with
  | none => none
  | some fp =>
    let randomFactor := (r * 2 - 1) * fp.inflation.volatility
    let adjustedInflationRate := fp.inflation.rate + randomFactor
    some (vMul expenses (some (1 + adjustedInflationRate)))

/-- `TaxSystem.calculatePensionIncome(pensionPot, rate)`. -/
def calculatePensionIncome (pensionPot : JsNum) (rate : ℚ) : JsNum :=
  vMul pensionPot (some rate)

/-- Life-event kind: `event: 'retire'` or `event: 'move'` with `newCountry`. -/
inductive EventKind where
  | retire
  | move (newCountry : String)
deriving DecidableEq, Repr

/-- One life event.  `income`/`expenses` are `none` when the property is
    absent (`undefined`). -/
structure LifeEvent where
  year : ℤ
  income : JsNum := none
  expenses : JsNum := none
  event : Option EventKind := none
deriving DecidableEq, Repr

/-- A user profile (`userProfile` shape). -/
structure Profile where
  birthYear : ℚ
  initialWealth : ℚ
  initialPensionPot : ℚ
  initialInvestments : List Investment
  initialCountry : String
  targetYear : ℤ
  lifeEvents : List LifeEvent
deriving DecidableEq, Repr

/-- One record pushed onto `results` per processed year. -/
structure YearResult where
  year : ℤ
  country : String
  incomeTaxes : List (String × ℚ)
  wealthTax : ℚ
  pensionIncome : JsNum
  capitalGainsTax : JsNum
  totalTax : JsNum
  netIncome : JsNum
  expenses : JsNum
  remainingWealth : JsNum
deriving DecidableEq, Repr

/-- The mutable loop state of `simulateScenario`.  `k` is the position in the
    stream of `Math.random()` draws (the supplied randomness capability). -/
structure SimState where
  results : List YearResult
  remainingWealth : JsNum
  investments : List Investment
  pensionPot : JsNum
  isRetired : Bool
  previousIncome : JsNum
  previousExpenses : JsNum
  country : String
  k : ℕ
deriving DecidableEq, Repr

/-- `const pensionWithdrawalRate = 0.04`. -/
def pensionWithdrawalRate : ℚ := 0.04

/-- Initial `previousIncome`:
    `profile.lifeEvents[0] ? profile.lifeEvents[0].income : 0` —
    taken from the first list element regardless of its year, and possibly
    `undefined` when that event has no income property. -/
def initialPrevIncome (profile : Profile) : JsNum :=
  match profile.lifeEvents.head? with
  | some e => e.income
  | none => some 0

/-- Initial `previousExpenses`, same shape as `initialPrevIncome`. -/
def initialPrevExpenses (profile : Profile) : JsNum :=
  match profile.lifeEvents.head? with
  | some e => e.expenses
  | none => some 0

/-- Lines 275-290 of the loop body: find the year's life event, resolve the
    year's income (sticky) and expenses (event override, else the
    inflation-adjustment call, which can throw), then apply the retire/move
    side effects.  Returns (income, expenses, isRetired, country, next draw
    index). -/
def resolveEvents (ts : TaxSystem) (rand : ℕ → ℚ) (profile : Profile)
    (year : ℤ) (s : SimState) :
    Option (JsNum × JsNum × Bool × String × ℕ) :=
  let lifeEvent := profile.lifeEvents.find? (fun e => e.year = year)
  let income : JsNum :=
    match lifeEvent with
    | some e => match e.income with | some i => some i | none => s.previousIncome
    | none => s.previousIncome
  let expensesK : Option (JsNum × ℕ) :=
    match lifeEvent with
    | some e =>
      match e.expenses with
      | some x => some (some x, s.k)
      | none => (calculateExpenses ts s.previousExpenses (rand s.k)).map
          (fun v => (v, s.k + 1))
    | none => (calculateExpenses ts s.previousExpenses (rand s.k)).map
        (fun v => (v, s.k + 1))
  match expensesK with
  | none => none
  | some (expenses, k1) =>
    let isRetired : Bool :=
      match lifeEvent with
      | some e => match e.event with | some .retire => true | _ => s.isRetired
      | none => s.isRetired
    let country : String :=
      match lifeEvent with
      | some e => match e.event with | some (.move c) => c | _ => s.country
      | none => s.country
    some (income, expenses, isRetired, country, k1)

/-- Lines 317-326: the wealth-update block.  On a deficit, wealth shrinks; on
    a surplus, wealth grows first and the surplus is then distributed over the
    positions using the already-updated wealth as the denominator.  There is
    no guard: a zero updated wealth divides by zero, making the position
    amounts non-finite. -/
def updateWealth (remainingWealth netIncome expenses : JsNum)
    (investments : List Investment) : JsNum × List Investment :=
  if vLtB netIncome expenses then
    (vSub remainingWealth (vSub expenses netIncome), investments)
  else
    let surplus := vSub netIncome expenses
    let rw := vAdd remainingWealth surplus
    (rw, investments.map fun inv =>
      { inv with amount := vAdd inv.amount (vMul surplus (vDiv inv.amount rw)) })

/-- Lines 292-339 of the loop body: investment returns, pension-pot growth
    and contribution, pension income when retired, the three tax computations,
    net income, the wealth update, and the `results.push`.  Takes the values
    resolved by `resolveEvents` as inputs. -/
def financialCore (ts : TaxSystem) (rand : ℕ → ℚ) (birthYear : ℚ) (year : ℤ)
    (income expenses : JsNum) (isRetired : Bool) (country : String)
    (s : SimState) : Option SimState :=
  match calculateInvestmentReturns ts rand s.k s.investments with
  | none => none
  | some (investments, k1) =>
    match calculatePensionReturns ts s.pensionPot (rand k1) with
    | none => none
    | some pret =>
      let pensionPot1 := vAdd s.pensionPot pret
      match calculatePensionContribution ts income country ((year : ℚ) - birthYear) with
      | none => none
      | some pensionContribution =>
        let pensionPot2 := vAdd pensionPot1 pensionContribution
        let pensionIncome : JsNum :=
          if isRetired then calculatePensionIncome pensionPot2 pensionWithdrawalRate
          else some 0
        match calculateIncomeTaxes ts (vAdd income pensionIncome) country with
        | none => none
        | some incomeTaxes =>
          match calculateWealthTax ts s.remainingWealth country with
          | none => none
          | some wealthTax =>
            match calculateCapitalGainsTax ts investments country with
            | none => none
            | some capitalGainsTax =>
              let totalTax :=
                vAdd (vAdd (some (incomeTaxes.foldl (fun a p => a + p.2) 0))
                  (some wealthTax)) capitalGainsTax
              let totalIncome :=
                vAdd (vAdd income pensionIncome)
                  (investments.foldl (fun a inv => vAdd a inv.gains) (some 0))
              let netIncome := vSub totalIncome totalTax
              let (remainingWealth, investments2) :=
                updateWealth s.remainingWealth netIncome expenses investments
              some
                { results := s.results ++
                    [{ year, country, incomeTaxes, wealthTax, pensionIncome,
                       capitalGainsTax, totalTax, netIncome, expenses,
                       remainingWealth }]
                  remainingWealth
                  investments := investments2
                  pensionPot := pensionPot2
                  isRetired
                  previousIncome := income
                  previousExpenses := expenses
                  country
                  k := k1 + 1 }

/-- One iteration of the first revision's year loop. -/
def stepYear (ts : TaxSystem) (rand : ℕ → ℚ) (profile : Profile) (year : ℤ)
    (s : SimState) : Option SimState :=
  match resolveEvents ts rand profile year s with
  | none => none
  | some (income, expenses, isRetired, country, k1) =>
    financialCore ts rand profile.birthYear year income expenses isRetired country
      { s with previousIncome := income, previousExpenses := expenses, k := k1 }

/-- The `for (let year = ...; year <= targetYear; year++)` loop, by fuel. -/
def runYears (ts : TaxSystem) (rand : ℕ → ℚ) (profile : Profile) :
    ℤ → ℕ → SimState → Option SimState
  | _, 0, s => some s
  | year, n + 1, s =>
    match stepYear ts rand profile year s with
    | none => none
    | some s1 => runYears ts rand profile (year + 1) n s1

/-- The loop state as initialized at the top of `simulateScenario`
    (lines 263-272): wealth, copied investments, pension pot, the
    `lifeEvents[0]`-based previous income/expenses, the initial country. -/
def initState (profile : Profile) : SimState where
  results := []
  remainingWealth := some profile.initialWealth
  investments := profile.initialInvestments.map
    (fun inv => ⟨inv.type, inv.amount, inv.gains⟩)
  pensionPot := some profile.initialPensionPot
  isRetired := false
  previousIncome := initialPrevIncome profile
  previousExpenses := initialPrevExpenses profile
  country := profile.initialCountry
  k := 0

/-- First revision `TaxSystem.simulateScenario(profile)`.  `currentYear`
    stands for `new Date().getFullYear()` (an external clock input) and
    `rand` for the stream of `Math.random()` draws. -/
def simulateScenario (ts : TaxSystem) (profile : Profile) (currentYear : ℤ)
    (rand : ℕ → ℚ) : Option (List YearResult) :=
  (runYears ts rand profile currentYear
    (profile.targetYear - currentYear + 1).toNat (initState profile)).map
    (fun s => s.results)

/-- The source's `userProfile` constant. -/
def userProfile : Profile where
  birthYear := 1985
  initialWealth := 1200000
  initialPensionPot := 100000
  initialInvestments :=
    [⟨"indexFunds", some 50000, none⟩, ⟨"individualShares", some 30000, none⟩]
  initialCountry := "Germany"
  targetYear := 2050
  lifeEvents :=
    [{ year := 2025, income := some 80000, expenses := some 42000,
       event := some (.move "USA") },
     { year := 2030, event := some .retire }]

/-- Association-list lookup standing for `this.taxRules[country]` in the
    second revision, where `taxRules` is a mutable cache. -/
def lookupRules (cache : List (String × CountryRules)) (country : String) :
    Option CountryRules :=
  (cache.find? (fun p => p.1 = country)).map (fun p => p.2)

/-- The external configuration fetch (`fetch('taxRules/...json')`), an
    external collaborator of the engine. -/
structure FetchEnv where
  fetchRules : String → Option CountryRules

/-- Second revision `loadCountryRules(country)`: cache hit, or fetch and
    cache; a failed fetch logs and returns `false`. -/
def loadCountryRules (env : FetchEnv) (cache : List (String × CountryRules))
    (country : String) : Bool × List (String × CountryRules) :=
  match lookupRules cache country with
  | some _ => (true, cache)
  | none =>
    match env.fetchRules country with
    | some r => (true, cache ++ [(country, r)])
    | none => (false, cache)

/-- The second revision's `this` with a given cache state (its constructor
    starts with `taxRules = {}` and also never sets `FinancialParameters`). -/
def tsOf (cache : List (String × CountryRules)) : TaxSystem where
  taxRules := lookupRules cache
  financialParameters := financialParameters

/-- The second revision's loop state: the rule cache plus the per-run state. -/
structure SimStateV2 where
  cache : List (String × CountryRules)
  st : SimState
deriving DecidableEq, Repr

/-- Lines 573-620: same financial computation as the first revision except
    that the wealth tax uses the reworked `calculateWealthTax`. -/
def financialCoreV2 (cache : List (String × CountryRules)) (rand : ℕ → ℚ)
    (birthYear : ℚ) (year : ℤ) (income expenses : JsNum) (isRetired : Bool)
    (country : String) (s : SimState) : Option SimState :=
  let ts := tsOf cache
  match calculateInvestmentReturns ts rand s.k s.investments with
  | none => none
  | some (investments, k1) =>
    match calculatePensionReturns ts s.pensionPot (rand k1) with
    | none => none
    | some pret =>
      let pensionPot1 := vAdd s.pensionPot pret
      match calculatePensionContribution ts income country ((year : ℚ) - birthYear) with
      | none => none
      | some pensionContribution =>
        let pensionPot2 := vAdd pensionPot1 pensionContribution
        let pensionIncome : JsNum :=
          if isRetired then calculatePensionIncome pensionPot2 pensionWithdrawalRate
          else some 0
        match calculateIncomeTaxes ts (vAdd income pensionIncome) country with
        | none => none
        | some incomeTaxes =>
          match calculateWealthTax_v2 (lookupRules cache) s.remainingWealth country with
          | none => none
          | some wealthTax =>
            match calculateCapitalGainsTax ts investments country with
            | none => none
            | some capitalGainsTax =>
              let totalTax :=
                vAdd (vAdd (some (incomeTaxes.foldl (fun a p => a + p.2) 0))
                  (some wealthTax)) capitalGainsTax
              let totalIncome :=
                vAdd (vAdd income pensionIncome)
                  (investments.foldl (fun a inv => vAdd a inv.gains) (some 0))
              let netIncome := vSub totalIncome totalTax
              let (remainingWealth, investments2) :=
                updateWealth s.remainingWealth netIncome expenses investments
              some
                { results := s.results ++
                    [{ year, country, incomeTaxes, wealthTax, pensionIncome,
                       capitalGainsTax, totalTax, netIncome, expenses,
                       remainingWealth }]
                  remainingWealth
                  investments := investments2
                  pensionPot := pensionPot2
                  isRetired
                  previousIncome := income
                  previousExpenses := expenses
                  country
                  k := k1 + 1 }

/-- One iteration of the second revision's year loop: after event resolution
    it awaits `loadCountryRules(country)`; on failure it logs and `continue`s
    — no result is pushed, and the loop state (including the possibly
    just-moved-to country) carries over to the next year unchanged. -/
def stepYearV2 (env : FetchEnv) (rand : ℕ → ℚ) (profile : Profile) (year : ℤ)
    (s : SimStateV2) : Option SimStateV2 :=
  match resolveEvents (tsOf s.cache) rand profile year s.st with
  | none => none
  | some (income, expenses, isRetired, country, k1) =>
    match loadCountryRules env s.cache country with
    | (true, cache1) =>
      (financialCoreV2 cache1 rand profile.birthYear year income expenses isRetired
        country
        { s.st with previousIncome := income, previousExpenses := expenses, k := k1 }).map
        (fun st1 => ⟨cache1, st1⟩)
    | (false, cache1) =>
      some ⟨cache1,
        { s.st with previousIncome := income, previousExpenses := expenses,
                    isRetired := isRetired, country := country, k := k1 }⟩

/-- The second revision's year loop, by fuel. -/
def runYearsV2 (env : FetchEnv) (rand : ℕ → ℚ) (profile : Profile) :
    ℤ → ℕ → SimStateV2 → Option SimStateV2
  | _, 0, s => some s
  | year, n + 1, s =>
    match stepYearV2 env rand profile year s with
    | none => none
    | some s1 => runYearsV2 env rand profile (year + 1) n s1

/-- The second revision's initial loop state: empty rule cache plus the same
    per-run state initialization as the first revision. -/
def initStateV2 (profile : Profile) : SimStateV2 where
  cache := []
  st := initState profile

/-- Second revision `simulateScenario(profile)`: starts with an empty rule
    cache and skips years whose country rules fail to load. -/
def simulateScenarioV2 (env : FetchEnv) (profile : Profile) (currentYear : ℤ)
    (rand : ℕ → ℚ) : Option (List YearResult) :=
  (runYearsV2 env rand profile currentYear
    (profile.targetYear - currentYear + 1).toNat (initStateV2 profile)).map
    (fun s => s.st.results)

/-- Per-bracket contribution of one pass of the accumulation loop in
    `calculateIncomeTaxes`. -/
def bracketContribution (income : ℚ) (b : TaxBracket) : ℚ :=
  if income > b.lo then bracketSlice income b * b.rate else 0

/-- Sanity of one bracket: when the upper bound is a truthy number it is at
    least the lower bound. -/
def bracketOrderedB (b : TaxBracket) : Bool :=
  match b.hi with
  | some t => t = 0 || decide (b.lo ≤ t)
  | none => true

/-- All rates of a component are non-negative. -/
def componentRatesNonnegB : TaxComponent → Bool
  | .flatRate _ rate _ => decide (0 ≤ rate)
  | .bracket _ brks => brks.all (fun b => decide (0 ≤ b.rate))

/-- All brackets of a component are ordered in the sense of
    `bracketOrderedB`. -/
def componentOrderedB : TaxComponent → Bool
  | .flatRate _ _ _ => true
  | .bracket _ brks => brks.all bracketOrderedB

/-- The threshold / lower bounds of a component are non-negative. -/
def componentLowerNonnegB : TaxComponent → Bool
  | .flatRate _ _ threshold => decide (0 ≤ threshold)
  | .bracket _ brks => brks.all (fun b => decide (0 ≤ b.lo))

theorem bracketSlice_hi_none {b : TaxBracket} (h : b.hi = none) (income : ℚ) :
    bracketSlice income b = income - b.lo := by
  unfold bracketSlice; rw [h]

theorem bracketSlice_hi_zero {b : TaxBracket} (h : b.hi = some 0) (income : ℚ) :
    bracketSlice income b = income - b.lo := by
  unfold bracketSlice; rw [h]; simp

theorem bracketSlice_hi_pos {b : TaxBracket} {t : ℚ} (h : b.hi = some t)
    (ht : t ≠ 0) (income : ℚ) : bracketSlice income b = min income t - b.lo := by
  unfold bracketSlice; rw [h]; simp [ht]

/-- The loop of `calculateIncomeTaxes` computes the sum of the per-bracket
    contributions. -/
theorem bracketAmount_eq_sum (income : ℚ) (brks : List TaxBracket) :
    bracketAmount income brks = (brks.map (bracketContribution income)).sum := by
  suffices h : ∀ (l : List TaxBracket) (a : ℚ),
      l.foldl (fun amount b =>
        if income > b.lo then amount + bracketSlice income b * b.rate else amount) a =
        a + (l.map (bracketContribution income)).sum by
    simpa [bracketAmount] using h brks 0
  intro l
  induction l with
  | nil => intro a; simp
  | cons b rest ih =>
    intro a
    simp only [List.foldl_cons, List.map_cons, List.sum_cons]
    rw [ih]
    unfold bracketContribution
    by_cases hb : income > b.lo
    · rw [if_pos hb, if_pos hb]; ring
    · rw [if_neg hb, if_neg hb]; ring

theorem unbounded_form_mono (lo rate : ℚ) (hr : 0 ≤ rate) {x y : ℚ}
    (hxy : x ≤ y) :
    (if x > lo then (x - lo) * rate else 0) ≤
      (if y > lo then (y - lo) * rate else 0) := by
  by_cases hx : x > lo
  · have hy : y > lo := lt_of_lt_of_le hx hxy
    rw [if_pos hx, if_pos hy]
    exact mul_le_mul_of_nonneg_right (by linarith) hr
  · rw [if_neg hx]
    by_cases hy : y > lo
    · rw [if_pos hy]; exact mul_nonneg (by linarith) hr
    · rw [if_neg hy]

theorem bounded_form_mono (lo t rate : ℚ) (hr : 0 ≤ rate) (hlot : lo ≤ t)
    {x y : ℚ} (hxy : x ≤ y) :
    (if x > lo then (min x t - lo) * rate else 0) ≤
      (if y > lo then (min y t - lo) * rate else 0) := by
  by_cases hx : x > lo
  · have hy : y > lo := lt_of_lt_of_le hx hxy
    rw [if_pos hx, if_pos hy]
    have hmin : min x t ≤ min y t := min_le_min hxy le_rfl
    exact mul_le_mul_of_nonneg_right (by linarith) hr
  · rw [if_neg hx]
    by_cases hy : y > lo
    · rw [if_pos hy]
      have hmin : lo ≤ min y t := le_min (le_of_lt hy) hlot
      exact mul_nonneg (by linarith) hr
    · rw [if_neg hy]

theorem unbounded_form_diff (lo rate : ℚ) (hr : 0 ≤ rate) {x y : ℚ}
    (hxy : x ≤ y) :
    (if y > lo then (y - lo) * rate else 0) -
        (if x > lo then (x - lo) * rate else 0) ≤ rate * (y - x) := by
  by_cases hx : x > lo
  · have hy : y > lo := lt_of_lt_of_le hx hxy
    rw [if_pos hx, if_pos hy]
    have : (y - lo) * rate - (x - lo) * rate = rate * (y - x) := by ring
    linarith
  · rw [if_neg hx]
    have hxlo : x ≤ lo := le_of_not_lt hx
    by_cases hy : y > lo
    · rw [if_pos hy]
      have h1 : (y - lo) * rate ≤ (y - x) * rate :=
        mul_le_mul_of_nonneg_right (by linarith) hr
      have h2 : (y - x) * rate = rate * (y - x) := by ring
      linarith
    · rw [if_neg hy]
      have : 0 ≤ rate * (y - x) := mul_nonneg hr (by linarith)
      linarith

theorem bounded_form_diff (lo t rate : ℚ) (hr : 0 ≤ rate)
    {x y : ℚ} (hxy : x ≤ y) :
    (if y > lo then (min y t - lo) * rate else 0) -
        (if x > lo then (min x t - lo) * rate else 0) ≤ rate * (y - x) := by
  have hmm : min y t - min x t ≤ y - x := by
    rcases min_cases x t with ⟨hx1, hx2⟩ | ⟨hx1, hx2⟩ <;>
      rcases min_cases y t with ⟨hy1, hy2⟩ | ⟨hy1, hy2⟩ <;> linarith
  by_cases hx : x > lo
  · have hy : y > lo := lt_of_lt_of_le hx hxy
    rw [if_pos hx, if_pos hy]
    have h1 : (min y t - lo) * rate - (min x t - lo) * rate =
        (min y t - min x t) * rate := by ring
    have h2 : (min y t - min x t) * rate ≤ (y - x) * rate :=
      mul_le_mul_of_nonneg_right hmm hr
    have h3 : (y - x) * rate = rate * (y - x) := by ring
    linarith
  · rw [if_neg hx]
    have hxlo : x ≤ lo := le_of_not_lt hx
    by_cases hy : y > lo
    · rw [if_pos hy]
      have hmin : min y t ≤ y := min_le_left y t
      have h1 : (min y t - lo) * rate ≤ (y - x) * rate :=
        mul_le_mul_of_nonneg_right (by linarith) hr
      have h2 : (y - x) * rate = rate * (y - x) := by ring
      linarith
    · rw [if_neg hy]
      have : 0 ≤ rate * (y - x) := mul_nonneg hr (by linarith)
      linarith

/-- From `bracketOrderedB` and a truthy upper bound, the bounds are ordered. -/
theorem lo_le_of_orderedB {b : TaxBracket} {t : ℚ} (hhi : b.hi = some t)
    (ht : t ≠ 0) (hb : bracketOrderedB b = true) : b.lo ≤ t := by
  unfold bracketOrderedB at hb
  rw [hhi] at hb
  simp only [Bool.or_eq_true, decide_eq_true_eq] at hb
  rcases hb with h0 | hle
  · exact absurd h0 ht
  · exact hle

theorem bracketContribution_mono {b : TaxBracket} (hr : 0 ≤ b.rate)
    (hb : bracketOrderedB b = true) {x y : ℚ} (hxy : x ≤ y) :
    bracketContribution x b ≤ bracketContribution y b := by
  unfold bracketContribution
  rcases hhi : b.hi with _ | t
  · rw [bracketSlice_hi_none hhi, bracketSlice_hi_none hhi]
    exact unbounded_form_mono b.lo b.rate hr hxy
  · by_cases ht : t = 0
    · subst ht
      rw [bracketSlice_hi_zero hhi, bracketSlice_hi_zero hhi]
      exact unbounded_form_mono b.lo b.rate hr hxy
    · rw [bracketSlice_hi_pos hhi ht, bracketSlice_hi_pos hhi ht]
      exact bounded_form_mono b.lo t b.rate hr (lo_le_of_orderedB hhi ht hb) hxy

theorem bracketContribution_diff_le {b : TaxBracket} (hr : 0 ≤ b.rate)
    {x y : ℚ} (hxy : x ≤ y) :
    bracketContribution y b - bracketContribution x b ≤ b.rate * (y - x) := by
  unfold bracketContribution
  rcases hhi : b.hi with _ | t
  · rw [bracketSlice_hi_none hhi, bracketSlice_hi_none hhi]
    exact unbounded_form_diff b.lo b.rate hr hxy
  · by_cases ht : t = 0
    · subst ht
      rw [bracketSlice_hi_zero hhi, bracketSlice_hi_zero hhi]
      exact unbounded_form_diff b.lo b.rate hr hxy
    · rw [bracketSlice_hi_pos hhi ht, bracketSlice_hi_pos hhi ht]
      exact bounded_form_diff b.lo t b.rate hr hxy

theorem bracketContribution_nonneg {b : TaxBracket} (hr : 0 ≤ b.rate)
    (hb : bracketOrderedB b = true) (x : ℚ) : 0 ≤ bracketContribution x b := by
  unfold bracketContribution
  by_cases hx : x > b.lo
  · rw [if_pos hx]
    refine mul_nonneg ?_ hr
    rcases hhi : b.hi with _ | t
    · rw [bracketSlice_hi_none hhi]; linarith
    · by_cases ht : t = 0
      · subst ht; rw [bracketSlice_hi_zero hhi]; linarith
      · rw [bracketSlice_hi_pos hhi ht]
        have : b.lo ≤ min x t := le_min (le_of_lt hx) (lo_le_of_orderedB hhi ht hb)
        linarith
  · rw [if_neg hx]

theorem sum_contrib_mono (brks : List TaxBracket)
    (h : ∀ b ∈ brks, 0 ≤ b.rate ∧ bracketOrderedB b = true) {x y : ℚ}
    (hxy : x ≤ y) :
    (brks.map (bracketContribution x)).sum ≤
      (brks.map (bracketContribution y)).sum := by
  induction brks with
  | nil => simp
  | cons b rest ih =>
    simp only [List.map_cons, List.sum_cons]
    have hb := h b (List.mem_cons_self b rest)
    exact add_le_add (bracketContribution_mono hb.1 hb.2 hxy)
      (ih (fun b2 hb2 => h b2 (List.mem_cons_of_mem b hb2)))

theorem sum_contrib_diff_le (brks : List TaxBracket)
    (h : ∀ b ∈ brks, 0 ≤ b.rate ∧ bracketOrderedB b = true) {x y : ℚ}
    (hxy : x ≤ y) :
    (brks.map (bracketContribution y)).sum -
        (brks.map (bracketContribution x)).sum ≤
      (brks.map (fun b => b.rate)).sum * (y - x) := by
  induction brks with
  | nil => simp
  | cons b rest ih =>
    simp only [List.map_cons, List.sum_cons, add_mul]
    have hb := h b (List.mem_cons_self b rest)
    have h1 := bracketContribution_diff_le hb.1 hxy
    have h2 := ih (fun b2 hb2 => h b2 (List.mem_cons_of_mem b hb2))
    linarith

/-- Modelled from the spec's words (claim C5): FlatRate contributes
    `max(0, base − threshold) × rate`; Bracket contributes, summed over every
    bracket whose lower bound is strictly less than the base,
    `(min(base, upperBound-or-base) − lowerBound) × rate`, an unbounded upper
    bound contributing `(base − lowerBound) × rate`.  Written for comparison
    with the code's `componentAmount`. -/
def specComponentAmount (base : ℚ) : TaxComponent → ℚ
  | .flatRate _ rate threshold => max 0 (base - threshold) * rate
  | .bracket _ brks =>
    (brks.map (fun b =>
      if b.lo < base then
        ((match b.hi with
          | some t => min base t
          | none => base) - b.lo) * b.rate
      else 0)).sum

/-- The spec formula amended for the code's JS truthiness test: a configured
    upper bound equal to `0` is falsy and is treated as unbounded. -/
def specComponentAmountFixed (base : ℚ) : TaxComponent → ℚ
  | .flatRate _ rate threshold => max 0 (base - threshold) * rate
  | .bracket _ brks =>
    (brks.map (fun b =>
      if b.lo < base then
        ((match b.hi with
          | some t => if t = 0 then base else min base t
          | none => base) - b.lo) * b.rate
      else 0)).sum

theorem bracketContribution_eq_fix (base : ℚ) (b : TaxBracket) :
    bracketContribution base b =
      (if b.lo < base then
        ((match b.hi with
          | some t => if t = 0 then base else min base t
          | none => base) - b.lo) * b.rate
      else 0) := by
  unfold bracketContribution
  rcases hhi : b.hi with _ | t
  · rw [bracketSlice_hi_none hhi]
  · by_cases ht : t = 0
    · subst ht
      rw [bracketSlice_hi_zero hhi]
      simp
    · rw [bracketSlice_hi_pos hhi ht]
      simp [ht]

/-- The code's per-component amount equals the amended spec formula. -/
theorem componentAmount_eq_specFixed (base : ℚ) (c : TaxComponent) :
    componentAmount base c = specComponentAmountFixed base c := by
  rcases c with ⟨n, rate, threshold⟩ | ⟨n, brks⟩
  · simp only [componentAmount, specComponentAmountFixed]
    by_cases h : base > threshold
    · rw [if_pos h, max_eq_right (show (0 : ℚ) ≤ base - threshold by linarith)]
    · rw [if_neg h, max_eq_left (show base - threshold ≤ (0 : ℚ) by linarith),
        zero_mul]
  · simp only [componentAmount, specComponentAmountFixed]
    rw [bracketAmount_eq_sum]
    congr 1
    exact List.map_congr_left (fun b _ => bracketContribution_eq_fix base b)

theorem componentAmount_nonneg (base : ℚ) (c : TaxComponent)
    (hr : componentRatesNonnegB c = true) (ho : componentOrderedB c = true) :
    0 ≤ componentAmount base c := by
  rcases c with ⟨n, rate, threshold⟩ | ⟨n, brks⟩
  · simp only [componentAmount]
    simp only [componentRatesNonnegB, decide_eq_true_eq] at hr
    by_cases h : base > threshold
    · rw [if_pos h]; exact mul_nonneg (by linarith) hr
    · rw [if_neg h]
  · simp only [componentAmount]
    simp only [componentRatesNonnegB, List.all_eq_true, decide_eq_true_eq] at hr
    simp only [componentOrderedB, List.all_eq_true] at ho
    rw [bracketAmount_eq_sum]
    apply List.sum_nonneg
    intro q hq
    rcases List.mem_map.mp hq with ⟨b, hbmem, rfl⟩
    exact bracketContribution_nonneg (hr b hbmem) (ho b hbmem) base

theorem componentAmount_zero_of_nonpos (base : ℚ) (c : TaxComponent)
    (hbase : base ≤ 0) (hl : componentLowerNonnegB c = true) :
    componentAmount base c = 0 := by
  rcases c with ⟨n, rate, threshold⟩ | ⟨n, brks⟩
  · simp only [componentAmount]
    simp only [componentLowerNonnegB, decide_eq_true_eq] at hl
    rw [if_neg (show ¬ base > threshold by simp only [gt_iff_lt, not_lt]; linarith)]
  · simp only [componentAmount]
    simp only [componentLowerNonnegB, List.all_eq_true, decide_eq_true_eq] at hl
    rw [bracketAmount_eq_sum]
    apply List.sum_eq_zero
    intro q hq
    rcases List.mem_map.mp hq with ⟨b, hbmem, rfl⟩
    unfold bracketContribution
    rw [if_neg (show ¬ base > b.lo by
      simp only [gt_iff_lt, not_lt]; linarith [hl b hbmem])]

/-- Profile whose only life event (year 2030) lies after the single simulated
    year 2025, so no event matches that year. -/
def profileC10 : Profile where
  birthYear := 1985
  initialWealth := 1000
  initialPensionPot := 0
  initialInvestments := []
  initialCountry := "Germany"
  targetYear := 2025
  lifeEvents := [{ year := 2030, income := some 100, expenses := some 50 }]

/-- Profile with an empty life-event list. -/
def emptyEventsProfile : Profile where
  birthYear := 1985
  initialWealth := 1000
  initialPensionPot := 0
  initialInvestments := []
  initialCountry := "Germany"
  targetYear := 2025
  lifeEvents := []

/-- Claim C1: the claim says every per-year transition completes without a
    runtime error, with `calculatePensionReturns` and `calculateExpenses`
    always returning a number.  In fact both read the never-assigned property
    `this.FinancialParameters` and throw a TypeError on every `TaxSystem` the
    source constructs, so on the source's own `userProfile` the run aborts in
    its first processed year and returns no `YearResult` at all. -/
theorem c1_sampling_reads_undefined_property :
    (∀ (pensionPot : JsNum) (r : ℚ),
        calculatePensionReturns taxSystem pensionPot r = none)
  ∧ (∀ (expenses : JsNum) (r : ℚ),
        calculateExpenses taxSystem expenses r = none)
  ∧ simulateScenario taxSystem userProfile 2025 (fun _ => 1/2) = none :=
  ⟨fun _ _ => rfl, fun _ _ => rfl, rfl⟩

/-- Claim C8: the claim requires pensionIncome 0 before the retire year 2030
    and `pensionPot × 0.04 > 0` from 2030 on.  The source's own profile does
    retire in 2030 with a positive pot, but for every random stream the run
    throws in `calculatePensionReturns` during its first processed year, so
    no `YearResult` (with any pensionIncome) is ever produced. -/
theorem c8_retirement_run_produces_no_results :
    (userProfile.lifeEvents.find? (fun e => e.event = some .retire)).map
        (fun e => e.year) = some 2030
  ∧ userProfile.initialPensionPot > 0
  ∧ ∀ rand : ℕ → ℚ, simulateScenario taxSystem userProfile 2025 rand = none :=
  ⟨rfl, by norm_num [userProfile], fun _ => rfl⟩

/-- Claim C10: the starting income/expenses are indeed initialized from
    `lifeEvents[0]` regardless of that event's year (here 2030, while the
    run starts in 2025), and an empty list initializes both to 0; but in the
    no-matching-event year the expenses are computed by `calculateExpenses`,
    which throws (see C1), so the claimed inflation-adjusted expenses value
    is never produced and the run returns nothing. -/
theorem c10_initialization_from_first_event :
    initialPrevIncome profileC10 = some 100
  ∧ initialPrevExpenses profileC10 = some 50
  ∧ profileC10.lifeEvents.find? (fun e => e.year = 2025) = none
  ∧ initialPrevIncome emptyEventsProfile = some 0
  ∧ initialPrevExpenses emptyEventsProfile = some 0
  ∧ ∀ rand : ℕ → ℚ, simulateScenario taxSystem profileC10 2025 rand = none :=
  ⟨rfl, rfl, rfl, rfl, rfl, fun _ => rfl⟩

/-- Claim C7: the claim says the surplus-distribution division is guarded
    against a zero post-surplus wealth, leaving positions unchanged.  It is
    not: with wealth −20, net income 30, expenses 10 the updated wealth is 0,
    the code divides by it, and the position's amount becomes non-finite
    (`none`) instead of staying `some 10`. -/
theorem c7_zero_wealth_division_unguarded :
    updateWealth (some (-20)) (some 30) (some 10)
        [⟨"indexFunds", some 10, none⟩] =
      (some 0, [⟨"indexFunds", none, none⟩])
  ∧ ((⟨"indexFunds", (none : JsNum), none⟩ : Investment) ==
      ⟨"indexFunds", some 10, none⟩) = false := by
  constructor
  · have h0 : (-20 : ℚ) + (30 - 10) = 0 := by norm_num
    norm_num [updateWealth, vLtB, vSub, vAdd, vMul, vDiv, h0]
  · rfl

/-- Claim C2 counterexample: for Germany (flat rule, rate 0.01, threshold
    1000000) and wealth 2000000 the first revision's `calculateWealthTax`
    returns `wealth × rate = 20000`, not the claimed
    `(wealth − threshold) × rate = 10000`. -/
theorem c2_counterexample_full_wealth_taxed :
    calculateWealthTax taxSystem (some 2000000) "Germany" = some 20000
  ∧ ((2000000 : ℚ) - 1000000) * 0.01 = 10000
  ∧ (calculateWealthTax taxSystem (some 2000000) "Germany" ==
      some (((2000000 : ℚ) - 1000000) * 0.01)) = false := by
  refine ⟨?_, by norm_num, ?_⟩
  · norm_num [calculateWealthTax, taxSystem, taxRules, germanyRules]
  · have h : calculateWealthTax taxSystem (some 2000000) "Germany" = some 20000 := by
      norm_num [calculateWealthTax, taxSystem, taxRules, germanyRules]
    rw [h]
    norm_num

/-- Claim C2 (amended): the fetch-based revision's `calculateWealthTax`
    returns `(w − t) × r` when `w > t`, else 0, and 0 with no configured
    rule; the static-table revision applies the rate to the whole wealth,
    returning `w × r` when `w > t`, else 0, and 0 with no rule. -/
theorem c2_wealth_tax_by_revision :
    (∀ (cache : String → Option CountryRules) (country : String)
        (rules : CountryRules) (rate threshold w : ℚ),
        cache country = some rules →
        effectiveWealthRule rules = some (.flat rate threshold) →
        calculateWealthTax_v2 cache (some w) country =
          some (if w > threshold then (w - threshold) * rate else 0))
  ∧ (∀ (cache : String → Option CountryRules) (country : String)
        (rules : CountryRules) (w : JsNum),
        cache country = some rules → effectiveWealthRule rules = none →
        calculateWealthTax_v2 cache w country = some 0)
  ∧ (∀ (ts : TaxSystem) (country : String) (rules : CountryRules)
        (rate threshold w : ℚ),
        ts.taxRules country = some rules →
        rules.wealthTax = some (.flat rate threshold) →
        calculateWealthTax ts (some w) country =
          some (if w > threshold then w * rate else 0))
  ∧ (∀ (ts : TaxSystem) (country : String) (rules : CountryRules) (w : JsNum),
        ts.taxRules country = some rules → rules.wealthTax = none →
        calculateWealthTax ts w country = some 0) := by
  refine ⟨?_, ?_, ?_, ?_⟩
  · intro cache country rules rate threshold w hc heff
    simp only [calculateWealthTax_v2, hc, heff]
  · intro cache country rules w hc heff
    simp only [calculateWealthTax_v2, hc, heff]
  · intro ts country rules rate threshold w hc hw
    simp only [calculateWealthTax, hc, hw]
    by_cases h : w > threshold
    · simp [h]
    · simp [h]
  · intro ts country rules w hc hw
    simp only [calculateWealthTax, hc, hw]

/-- A country record with only a flat wealth-tax rule, for the witness. -/
def wealthRulesG : CountryRules where
  incomeTaxes := none
  wealthTax := some (.flat 0.01 1000000)
  personalAssetsTax := none
  capitalGainsTax := []
  pensionContribution := .fixedRate 0 0

/-- Witness for claim C2's amended theorem at wealth 2000000. -/
theorem c2_wealth_tax_witness :
    calculateWealthTax_v2 (fun c => if c = "G" then some wealthRulesG else none)
        (some 2000000) "G" =
      some (if (2000000 : ℚ) > 1000000 then ((2000000 : ℚ) - 1000000) * 0.01 else 0)
  ∧ calculateWealthTax taxSystem (some 2000000) "Germany" =
      some (if (2000000 : ℚ) > 1000000 then (2000000 : ℚ) * 0.01 else 0) :=
  ⟨c2_wealth_tax_by_revision.1 _ "G" wealthRulesG 0.01 1000000 2000000 rfl rfl,
   c2_wealth_tax_by_revision.2.2.1 taxSystem "Germany" germanyRules 0.01 1000000
     2000000 rfl rfl⟩

/-- Claim C3 counterexample: for Germany's brackets the code gives the same
    amount (1400) at bases 10000 and 10001 — bracket two starts taxing only
    strictly above its lower bound 10001, so the unit from 10000 to 10001
    falls into the boundary gap and the claimed increment of 0.3 does not
    appear between these two bases. -/
theorem c3_counterexample_boundary_gap :
    calculateIncomeTaxes taxSystem (some 10001) "Germany" =
      some [("Income Tax", 1400)]
  ∧ calculateIncomeTaxes taxSystem (some 10000) "Germany" =
      some [("Income Tax", 1400)]
  ∧ ((1400 : ℚ) == 1400 + 0.3) = false := by
  refine ⟨?_, ?_, by norm_num⟩ <;>
    norm_num [calculateIncomeTaxes, taxSystem, taxRules, germanyRules,
      germanyBrackets, componentAmountV, componentAmount, bracketAmount,
      bracketSlice, TaxComponent.name, min_def]

/-- Claim C3 (amended): for brackets with non-negative rates and ordered
    bounds the computed amount is non-decreasing and Lipschitz in the base
    (hence continuous), with constant the sum of the rates; for Germany the
    marginal 0.3 increment appears between bases 10001 and 10002 (one unit
    above the second bracket's lower bound 10001), while bases 10000 and
    10001 yield the same amount. -/
theorem c3_bracket_monotone_continuous_gap :
    (∀ (brks : List TaxBracket),
        (∀ b ∈ brks, 0 ≤ b.rate ∧ bracketOrderedB b = true) →
        ∀ x y : ℚ, x ≤ y → bracketAmount x brks ≤ bracketAmount y brks)
  ∧ (∀ (brks : List TaxBracket),
        (∀ b ∈ brks, 0 ≤ b.rate ∧ bracketOrderedB b = true) →
        ∀ x y : ℚ, |bracketAmount x brks - bracketAmount y brks| ≤
          (brks.map (fun b => b.rate)).sum * |x - y|)
  ∧ calculateIncomeTaxes taxSystem (some 10000) "Germany" =
      some [("Income Tax", 1400)]
  ∧ calculateIncomeTaxes taxSystem (some 10001) "Germany" =
      some [("Income Tax", 1400)]
  ∧ calculateIncomeTaxes taxSystem (some 10002) "Germany" =
      some [("Income Tax", 1400 + 0.3)] := by
  refine ⟨?_, ?_, ?_, ?_, ?_⟩
  · intro brks h x y hxy
    rw [bracketAmount_eq_sum, bracketAmount_eq_sum]
    exact sum_contrib_mono brks h hxy
  · intro brks h x y
    rcases le_total x y with hxy | hxy
    · have hm := sum_contrib_mono brks h hxy
      have hd := sum_contrib_diff_le brks h hxy
      rw [bracketAmount_eq_sum, bracketAmount_eq_sum,
        abs_of_nonpos (by linarith), abs_of_nonpos (by linarith)]
      have hR : (brks.map (fun b => b.rate)).sum * -(x - y) =
          (brks.map (fun b => b.rate)).sum * (y - x) := by ring
      linarith
    · have hm := sum_contrib_mono brks h hxy
      have hd := sum_contrib_diff_le brks h hxy
      rw [bracketAmount_eq_sum, bracketAmount_eq_sum,
        abs_of_nonneg (by linarith), abs_of_nonneg (by linarith)]
      linarith
  all_goals
    norm_num [calculateIncomeTaxes, taxSystem, taxRules, germanyRules,
      germanyBrackets, componentAmountV, componentAmount, bracketAmount,
      bracketSlice, TaxComponent.name, min_def]

/-- Witness for claim C3's amended theorem, at Germany's brackets and the
    concrete bases 5 and 7. -/
theorem c3_bracket_witness :
    bracketAmount 5 germanyBrackets ≤ bracketAmount 7 germanyBrackets
  ∧ |bracketAmount 5 germanyBrackets - bracketAmount 7 germanyBrackets| ≤
      (germanyBrackets.map (fun b => b.rate)).sum * |(5 : ℚ) - 7| :=
  ⟨c3_bracket_monotone_continuous_gap.1 germanyBrackets
      (by norm_num [germanyBrackets, bracketOrderedB]) 5 7 (by norm_num),
   c3_bracket_monotone_continuous_gap.2.1 germanyBrackets
      (by norm_num [germanyBrackets, bracketOrderedB]) 5 7⟩

/-- One-country table whose single income-tax component is a bracket with a
    configured upper bound of 0 (falsy in JS). -/
def tsX : TaxSystem where
  taxRules := fun c =>
    if c = "X" then some
      { incomeTaxes := some [.bracket "T" [⟨1, 0, some 0⟩]]
        wealthTax := none
        personalAssetsTax := none
        capitalGainsTax := []
        pensionContribution := .fixedRate 0 0 }
    else none
  financialParameters := financialParameters

/-- Claim C5 counterexample: (i) a bracket with upper bound 0 is treated as
    unbounded by the code (JS falsiness), so at base 5 the code returns 5
    where the claim's `min(base, upperBound)` formula gives 0; (ii) with
    non-negative rates but an upper bound below the lower bound the code
    produces a negative contribution (−5); (iii) a negative flat threshold
    gives a non-zero amount at a base ≤ 0. -/
theorem c5_counterexample_truthiness_and_bounds :
    calculateIncomeTaxes tsX (some 5) "X" = some [("T", 5)]
  ∧ specComponentAmount 5 (.bracket "T" [⟨1, 0, some 0⟩]) = 0
  ∧ ((5 : ℚ) == 0) = false
  ∧ componentAmount 12 (.bracket "U" [⟨1, 10, some 5⟩]) = -5
  ∧ componentRatesNonnegB (.bracket "U" [⟨1, 10, some 5⟩]) = true
  ∧ componentAmount (-5) (.flatRate "W" 1 (-10)) = 5 := by
  refine ⟨?_, ?_, by norm_num, ?_, by norm_num [componentRatesNonnegB], ?_⟩ <;>
    norm_num [calculateIncomeTaxes, tsX, componentAmountV, componentAmount,
      specComponentAmount, bracketAmount, bracketSlice, TaxComponent.name,
      min_def]

/-- Claim C5 (amended): `calculateIncomeTaxes` returns one (name, amount)
    pair per component, where the amount follows the claim's formula amended
    so that a configured upper bound of 0 counts as unbounded; contributions
    are non-negative given non-negative rates and lower bounds not exceeding
    truthy upper bounds; and the amount is 0 at base ≤ 0 given non-negative
    thresholds and lower bounds. -/
theorem c5_income_taxes_formula :
    (∀ (ts : TaxSystem) (country : String) (rules : CountryRules)
        (comps : List TaxComponent) (base : ℚ),
        ts.taxRules country = some rules → rules.incomeTaxes = some comps →
        calculateIncomeTaxes ts (some base) country =
          some (comps.map fun c => (c.name, specComponentAmountFixed base c)))
  ∧ (∀ (base : ℚ) (c : TaxComponent),
        componentRatesNonnegB c = true → componentOrderedB c = true →
        0 ≤ componentAmount base c)
  ∧ (∀ (base : ℚ) (c : TaxComponent), base ≤ 0 →
        componentLowerNonnegB c = true → componentAmount base c = 0) := by
  refine ⟨?_, componentAmount_nonneg, componentAmount_zero_of_nonpos⟩
  intro ts country rules comps base hc hic
  simp only [calculateIncomeTaxes, hc, hic, Option.some.injEq]
  refine List.map_congr_left ?_
  intro c _
  simp only [componentAmountV, componentAmount_eq_specFixed]

/-- Witness for claim C5's amended theorem at Germany's rules and bases
    10002 and −1. -/
theorem c5_income_taxes_witness :
    calculateIncomeTaxes taxSystem (some 10002) "Germany" =
      some ([TaxComponent.bracket "Income Tax" germanyBrackets].map
        fun c => (c.name, specComponentAmountFixed 10002 c))
  ∧ 0 ≤ componentAmount 10002 (.bracket "Income Tax" germanyBrackets)
  ∧ componentAmount (-1) (.bracket "Income Tax" germanyBrackets) = 0 :=
  ⟨c5_income_taxes_formula.1 taxSystem "Germany" germanyRules
      [.bracket "Income Tax" germanyBrackets] 10002 rfl rfl,
   c5_income_taxes_formula.2.1 10002 (.bracket "Income Tax" germanyBrackets)
      (by norm_num [componentRatesNonnegB, germanyBrackets])
      (by norm_num [componentOrderedB, bracketOrderedB, germanyBrackets]),
   c5_income_taxes_formula.2.2 (-1) (.bracket "Income Tax" germanyBrackets)
      (by norm_num) (by norm_num [componentLowerNonnegB, germanyBrackets])⟩

/-- Minimal loadable country record for the fetch environment. -/
def minimalRules : CountryRules where
  incomeTaxes := some []
  wealthTax := none
  personalAssetsTax := none
  capitalGainsTax := []
  pensionContribution := .fixedRate 0 0

/-- Fetch environment in which "Germany" resolves and "Atlantis" does not. -/
def envC4 : FetchEnv := ⟨fun c => if c = "Germany" then some minimalRules else none⟩

/-- Profile that moves to the unresolvable "Atlantis" in 2025; every
    simulated year carries an expenses override so the loop reaches the
    rule-loading check. -/
def profileC4 : Profile where
  birthYear := 1985
  initialWealth := 1000
  initialPensionPot := 0
  initialInvestments := []
  initialCountry := "Germany"
  targetYear := 2026
  lifeEvents :=
    [{ year := 2025, income := some 100, expenses := some 50,
       event := some (.move "Atlantis") },
     { year := 2026, income := some 100, expenses := some 50 }]

/-- Claim C4 counterexample: after the failed move to "Atlantis" in 2025 the
    loop state keeps country "Atlantis" — it is not rolled back to the
    loadable "Germany" — so 2026 also fails to resolve and the whole run
    returns an empty result list, though the claim's reading (continue with
    the last successfully established country state) would process 2026
    under "Germany". -/
theorem c4_counterexample_failed_move_country_kept :
    simulateScenarioV2 envC4 profileC4 2025 (fun _ => 1/2) = some []
  ∧ (stepYearV2 envC4 (fun _ => 1/2) profileC4 2025 (initStateV2 profileC4)).map
      (fun s => s.st.country) = some "Atlantis"
  ∧ ("Atlantis" == "Germany") = false
  ∧ (envC4.fetchRules "Germany" == none) = false :=
  ⟨rfl, rfl, rfl, by rfl⟩

/-- Claim C4 (amended): when the rule load for the post-event country fails,
    the step appends no `YearResult` and the run continues with the next
    year; but the loop state keeps the (possibly just-moved-to, unresolvable)
    country rather than reverting to the last successfully established one —
    only income, expenses, retirement flag, country, the draw index and the
    cache change, and the results list is untouched. -/
theorem c4_skip_year_continue (env : FetchEnv) (rand : ℕ → ℚ)
    (profile : Profile) (year : ℤ) (s : SimStateV2) (income expenses : JsNum)
    (isRetired : Bool) (country : String) (k1 : ℕ)
    (hres : resolveEvents (tsOf s.cache) rand profile year s.st =
      some (income, expenses, isRetired, country, k1))
    (cache1 : List (String × CountryRules))
    (hload : loadCountryRules env s.cache country = (false, cache1)) :
    stepYearV2 env rand profile year s =
      some { cache := cache1
             st := { s.st with
                     previousIncome := income
                     previousExpenses := expenses
                     isRetired := isRetired
                     country := country
                     k := k1 } } := by
  simp only [stepYearV2, hres, hload]

/-- Witness for claim C4's amended theorem, at the 2025 failed move of
    `profileC4`. -/
theorem c4_skip_year_witness :
    stepYearV2 envC4 (fun _ => (1 : ℚ)/2) profileC4 2025 (initStateV2 profileC4) =
      some { cache := []
             st := { (initStateV2 profileC4).st with
                     previousIncome := some 100
                     previousExpenses := some 50
                     isRetired := false
                     country := "Atlantis"
                     k := 0 } } :=
  c4_skip_year_continue envC4 (fun _ => (1 : ℚ)/2) profileC4 2025
    (initStateV2 profileC4) (some 100) (some 50) false "Atlantis" 0 rfl [] rfl

/-- Claim C6: on a surplus year the wealth becomes the old wealth plus the
    surplus, and each position's amount increases by
    `surplus × amount / updatedWealth`, the denominator being the
    post-surplus wealth (the second and third conjuncts separate this from
    the pre-surplus denominator at a concrete input, where the post-surplus
    formula gives 70, not 72).  The division presupposes a non-zero updated
    wealth; the zero case is the subject of C7. -/
theorem c6_surplus_distribution :
    (∀ (w n e : ℚ) (invs : List Investment), e ≤ n → w + (n - e) ≠ 0 →
      updateWealth (some w) (some n) (some e) invs =
        (some (w + (n - e)),
         invs.map fun inv =>
           { inv with amount :=
               match inv.amount with
               | some a => some (a + (n - e) * (a / (w + (n - e))))
               | none => none }))
  ∧ updateWealth (some 100) (some 30) (some 10) [⟨"indexFunds", some 60, none⟩] =
      (some 120, [⟨"indexFunds", some 70, none⟩])
  ∧ ((60 + (30 - 10) * (60 / 100) : ℚ) == 70) = false := by
  refine ⟨?_, ?_, by norm_num⟩
  · intro w n e invs h1 h2
    have hlt : vLtB (some n) (some e) = false := by
      simp [vLtB, not_lt.mpr h1]
    simp only [updateWealth, hlt, Bool.false_eq_true, if_false, vSub, vAdd]
    refine Prod.ext rfl ?_
    refine List.map_congr_left ?_
    intro inv _
    rcases hai : inv.amount with _ | a
    · simp [vDiv, vMul, vAdd, hai]
    · simp [vDiv, vMul, vAdd, hai, h2]
  · have h2 : (100 : ℚ) + (30 - 10) ≠ 0 := by norm_num
    have hlt : vLtB (some (30 : ℚ)) (some 10) = false := by
      norm_num [vLtB]
    simp only [updateWealth, hlt, Bool.false_eq_true, if_false, vSub, vAdd,
      List.map_cons, List.map_nil, vMul, vDiv]
    norm_num

/-- Witness for claim C6's distribution formula at wealth 100, net income 30,
    expenses 10 and a single position of 60. -/
theorem c6_surplus_distribution_witness :
    updateWealth (some 100) (some 30) (some 10) [⟨"indexFunds", some 60, none⟩] =
      (some (100 + (30 - 10)),
       [⟨"indexFunds", some (60 + (30 - 10) * (60 / (100 + (30 - 10)))), none⟩]) :=
  c6_surplus_distribution.1 100 30 10 [⟨"indexFunds", some 60, none⟩]
    (by norm_num) (by norm_num)

theorem calculateIncomeTaxes_of_rules {ts : TaxSystem} {country : String}
    {rules : CountryRules} (h : ts.taxRules country = some rules)
    (income : JsNum) : ∃ l, calculateIncomeTaxes ts income country = some l := by
  rcases h2 : rules.incomeTaxes with _ | comps
  · exact ⟨[], by simp [calculateIncomeTaxes, h, h2]⟩
  · exact ⟨comps.map (fun c => (c.name, componentAmountV income c)),
      by simp [calculateIncomeTaxes, h, h2]⟩

theorem calculateWealthTax_of_rules {ts : TaxSystem} {country : String}
    {rules : CountryRules} (h : ts.taxRules country = some rules) (w : JsNum) :
    ∃ q, calculateWealthTax ts w country = some q := by
  rcases h2 : rules.wealthTax with _ | rule
  · exact ⟨0, by simp [calculateWealthTax, h, h2]⟩
  · rcases rule with ⟨rate, threshold⟩ | bs
    · rcases w with _ | wq
      · exact ⟨0, by simp [calculateWealthTax, h, h2]⟩
      · by_cases hw : wq > threshold
        · exact ⟨wq * rate, by simp [calculateWealthTax, h, h2, hw]⟩
        · exact ⟨0, by simp [calculateWealthTax, h, h2, hw]⟩
    · exact ⟨0, by simp [calculateWealthTax, h, h2]⟩

theorem calculateCapitalGainsTax_of_rules {ts : TaxSystem} {country : String}
    {rules : CountryRules} (h : ts.taxRules country = some rules)
    (invs : List Investment) :
    ∃ q, calculateCapitalGainsTax ts invs country = some q := by
  exact ⟨invs.foldl
      (fun acc inv =>
        vAdd acc (vMul inv.gains (some (lookupRate rules.capitalGainsTax inv.type))))
      (some 0),
    by simp [calculateCapitalGainsTax, h]⟩

/-- Claim C9: in the year step's financial block the resulting pension pot is
    exactly the old pot plus the sampled pension return plus the
    contribution, for retired and non-retired years alike — computing the
    pension income never decrements the pot.  Stated over any `TaxSystem`
    value and any step that completes (on the instances the source builds no
    step completes at all, see C1; the dataflow of the block is unchanged by
    that). -/
theorem c9_pension_pot_frame (ts : TaxSystem) (rand : ℕ → ℚ) (birthYear : ℚ)
    (year : ℤ) (income expenses : JsNum) (country : String) (s : SimState)
    (rules : CountryRules) (invs2 : List Investment) (k1 : ℕ)
    (pret contrib : JsNum) (s1 s2 : SimState)
    (hru : ts.taxRules country = some rules)
    (hinv : calculateInvestmentReturns ts rand s.k s.investments = some (invs2, k1))
    (hret : calculatePensionReturns ts s.pensionPot (rand k1) = some pret)
    (hcon : calculatePensionContribution ts income country
      ((year : ℚ) - birthYear) = some contrib)
    (h1 : financialCore ts rand birthYear year income expenses true country s =
      some s1)
    (h2 : financialCore ts rand birthYear year income expenses false country s =
      some s2) :
    s1.pensionPot = vAdd (vAdd s.pensionPot pret) contrib
  ∧ s2.pensionPot = vAdd (vAdd s.pensionPot pret) contrib
  ∧ s1.pensionPot = s2.pensionPot := by
  obtain ⟨l1, hl1⟩ := calculateIncomeTaxes_of_rules hru
    (vAdd income (calculatePensionIncome (vAdd (vAdd s.pensionPot pret) contrib)
      pensionWithdrawalRate))
  obtain ⟨l2, hl2⟩ := calculateIncomeTaxes_of_rules hru (vAdd income (some 0))
  obtain ⟨wq, hw⟩ := calculateWealthTax_of_rules hru s.remainingWealth
  obtain ⟨cg, hcg⟩ := calculateCapitalGainsTax_of_rules hru invs2
  simp only [financialCore, hinv, hret, hcon, if_true, Bool.false_eq_true,
    if_false, hl1, hl2, hw, hcg] at h1 h2
  have h3 := Option.some.inj h1
  have h4 := Option.some.inj h2
  have e1 : s1.pensionPot = vAdd (vAdd s.pensionPot pret) contrib := by
    rw [← h3]
  have e2 : s2.pensionPot = vAdd (vAdd s.pensionPot pret) contrib := by
    rw [← h4]
  exact ⟨e1, e2, e1.trans e2.symm⟩

/-- A `TaxSystem` value on which the financial block completes (its
    `FinancialParameters` property is present), for the C9 witness. -/
def ts9 : TaxSystem where
  taxRules := taxRules
  financialParameters := financialParameters
  FinancialParameters := some financialParameters

/-- A simple loop state for the C9 witness. -/
def s9 : SimState where
  results := []
  remainingWealth := some 0
  investments := []
  pensionPot := some 0
  isRetired := false
  previousIncome := some 0
  previousExpenses := some 0
  country := "Germany"
  k := 0

/-- The state produced by the financial block from `s9` in a retired year. -/
def s9r : SimState where
  results := [{ year := 2030
                country := "Germany"
                incomeTaxes := [("Income Tax", 0)]
                wealthTax := 0
                pensionIncome := some 0
                capitalGainsTax := some 0
                totalTax := some 0
                netIncome := some 0
                expenses := some 0
                remainingWealth := some 0 }]
  remainingWealth := some 0
  investments := []
  pensionPot := some 0
  isRetired := true
  previousIncome := some 0
  previousExpenses := some 0
  country := "Germany"
  k := 1

/-- The state produced by the financial block from `s9` in a non-retired
    year: identical to `s9r` except for the retirement flag. -/
def s9rActive : SimState := { s9r with isRetired := false }

/-- Witness for claim C9 at a concrete completing step. -/
theorem c9_pension_pot_frame_witness :
    s9r.pensionPot = vAdd (vAdd (some 0) (some 0)) (some 0)
  ∧ s9rActive.pensionPot = vAdd (vAdd (some 0) (some 0)) (some 0)
  ∧ s9r.pensionPot = s9rActive.pensionPot :=
  c9_pension_pot_frame ts9 (fun _ => (1 : ℚ)/2) 1985 2030 (some 0) (some 0)
    "Germany" s9 germanyRules [] 0 (some 0) (some 0) s9r s9rActive
    rfl rfl
    (by norm_num [calculatePensionReturns, ts9, financialParameters, s9, vMul])
    (by norm_num [calculatePensionContribution, ts9, taxRules, germanyRules, vMul])
    (by norm_num [financialCore, calculateInvestmentReturns,
      calculatePensionReturns, calculatePensionContribution,
      calculateIncomeTaxes, calculateWealthTax, calculateCapitalGainsTax,
      calculatePensionIncome, updateWealth, vAdd, vSub, vMul, vMin, vDiv, vLtB,
      ts9, s9, s9r, taxRules, germanyRules, germanyBrackets,
      financialParameters, componentAmountV, componentAmount, bracketAmount,
      bracketSlice, TaxComponent.name, pensionWithdrawalRate, min_def,
      lookupRate])
    (by norm_num [financialCore, calculateInvestmentReturns,
      calculatePensionReturns, calculatePensionContribution,
      calculateIncomeTaxes, calculateWealthTax, calculateCapitalGainsTax,
      calculatePensionIncome, updateWealth, vAdd, vSub, vMul, vMin, vDiv, vLtB,
      ts9, s9, s9r, s9rActive, taxRules, germanyRules, germanyBrackets,
      financialParameters, componentAmountV, componentAmount, bracketAmount,
      bracketSlice, TaxComponent.name, pensionWithdrawalRate, min_def,
      lookupRate])
